import Mathlib

/-
  Verification of the homebridge-smart-envi plugin core: the authenticated
  HTTP client with re-login on 403 (src/platform.ts), and the per-device
  polling session, command dispatch and unit conversions
  (src/platformAccessory.ts).

  Numbers carried by the vendor API (temperatures, brightness, color
  channels) are modelled as rationals; machine floats are out of scope.
  Network interaction is modelled by scripting the server: a fetch call
  consumes replies from a list, one reply per HTTP attempt.
-/

namespace SmartEnvi

/-! ## Unit conversion (platformAccessory.ts, fToC / cToF) -/

/-- fToC from platformAccessory.ts: (f - 32) * (5 / 9). -/
def fToC (f : ℚ) : ℚ := (f - 32) * (5 / 9)

/-- cToF from platformAccessory.ts: c * (9 / 5) + 32. -/
def cToF (c : ℚ) : ℚ := c * (9 / 5) + 32

/-! ## Errors

The code throws HapStatusError with one of three HAPStatus codes; the spec
names them CommunicationError (SERVICE_COMMUNICATION_FAILURE),
AuthorizationError (INSUFFICIENT_AUTHORIZATION) and NotReadyError
(RESOURCE_BUSY). -/

inductive HapError
  | serviceCommunicationFailure
  | insufficientAuthorization
  | resourceBusy
deriving DecidableEq, Repr

/-! ## Authenticated client (platform.ts: authToken, authorize, fetch) -/

/-- One scripted server reply to one HTTP attempt: either the transport
fails (fetch throws) or an HTTP status code arrives. -/
inductive ServerReply
  | transportError
  | status (code : Nat)
deriving DecidableEq, Repr

/-- Client-side state of SmartEnviHomebridgePlatform: the held token
(authToken: string | null, modelled as Option String with none for null),
a count of login attempts performed, and the trace of every assignment
made to authToken (to observe clearing and re-acquisition). -/
structure ClientState where
  authToken : Option String
  loginCount : Nat
  tokenWrites : List (Option String)
deriving DecidableEq, Repr

/-- State at startup: authToken is initialised to null (platform.ts line 80). -/
def initialClientState : ClientState :=
  { authToken := none, loginCount := 0, tokenWrites := [] }

/-- Record an assignment to authToken. -/
def setToken (s : ClientState) (t : Option String) : ClientState :=
  { s with authToken := t, tokenWrites := s.tokenWrites ++ [t] }

/-- authorize (platform.ts lines 129-163): sets authToken to the empty
string, posts the credentials, and on response stores the returned token.
The login POST itself is abstracted as succeeding with token newTok;
the claims under verification only exercise successful re-logins. -/
def authorize (newTok : String) (s : ClientState) : ClientState :=
  let s1 := setToken s (some "")
  let s2 := { s1 with loginCount := s1.loginCount + 1 }
  setToken s2 (some newTok)

/-- Result of a fetch call: the 200 response, a thrown HapStatusError, or
exhausted, meaning the scripted replies ran out while the client was still
retrying (used to observe that an all-403 server is retried without bound). -/
inductive FetchResult
  | success (code : Nat)
  | failure (e : HapError)
  | exhausted
deriving DecidableEq, Repr

/-- fetch (platform.ts lines 165-218). Branches in source order:
a transport failure throws SERVICE_COMMUNICATION_FAILURE; on 403 the token
is set to the empty string, authorize runs, and the call recurses on the
same input (return this.fetch(input, init)); on 401 it throws
INSUFFICIENT_AUTHORIZATION; a non-ok status (outside 200..299) and then any
remaining non-200 status throw SERVICE_COMMUNICATION_FAILURE; otherwise the
200 response is returned. Each attempt consumes the next scripted reply. -/
def fetch (newTok : String) : List ServerReply → ClientState → FetchResult × ClientState
  | [], s => (.exhausted, s)
  | ServerReply.transportError :: _, s =>
      (.failure .serviceCommunicationFailure, s)
  | ServerReply.status code :: rest, s =>
      if code = 403 then
        fetch newTok rest (authorize newTok (setToken s (some "")))
      else if code = 401 then
        (.failure .insufficientAuthorization, s)
      else if ¬ (200 ≤ code ∧ code < 300) then
        (.failure .serviceCommunicationFailure, s)
      else if code ≠ 200 then
        (.failure .serviceCommunicationFailure, s)
      else
        (.success code, s)

/-- A client state as it stands after the initial successful login. -/
def stateAfterFirstLogin : ClientState :=
  { authToken := some "tok1", loginCount := 1, tokenWrites := [] }

/-! ## Device data model (platformAccessory.ts: NightLightData, OnlineDeviceData) -/

/-- RGB color triple of NightLightData (channels 0 to 255). -/
structure RGB where
  r : ℚ
  g : ℚ
  b : ℚ
deriving DecidableEq, Repr

/-- NightLightData from platformAccessory.ts: brightness, auto flag, the
redundant on/off boolean pair (the field named on in the source is
rendered on' here, since on is reserved in Lean), and an RGB color. -/
structure NightLightData where
  brightness : ℚ
  auto : Bool
  on' : Bool
  off : Bool
  color : RGB
deriving DecidableEq, Repr

/-- Temperature unit reported by the device ("F" or "C"). -/
inductive TempUnit
  | F
  | C
deriving DecidableEq, Repr

/-- The auto sub-object of OnlineDeviceData. -/
structure AutoData where
  current_temperature : ℚ
  state : Nat
deriving DecidableEq, Repr

/-- OnlineDeviceData from platformAccessory.ts: the device snapshot parsed
from the data field of GET /device/:id. -/
structure OnlineDeviceData where
  current_temperature : ℚ
  ambient_temperature : ℚ
  device_status : Nat
  state : Nat
  current_mode : Nat
  status : Nat
  firmware_version : String
  temperature_unit : TempUnit
  auto : AutoData
  night_light_setting : NightLightData
deriving DecidableEq, Repr

/-! ## Guarded read and poll loop (platformAccessory.ts) -/

/-- guardedOnlineData (platformAccessory.ts lines 288-302): throws
RESOURCE_BUSY when data is still null; the offline check on device_status
is commented out in the source, so any loaded snapshot is returned as is. -/
def guardedOnlineData : Option OnlineDeviceData → Except HapError OnlineDeviceData
  | none => .error .resourceBusy
  | some d => .ok d

/-- Outcome of one updateStatus call: the parsed snapshot from a successful
GET, or the error the awaited fetch threw. -/
inductive PollOutcome
  | ok (d : OnlineDeviceData)
  | err (e : HapError)
deriving DecidableEq, Repr

/-- Effect of updateStatus (platformAccessory.ts lines 278-286) on the
stored snapshot: on success the assignment this.data = data replaces it
wholesale; a thrown error propagates before that assignment runs, leaving
the previous snapshot in place. -/
def updateStatus (old : Option OnlineDeviceData) : PollOutcome → Option OnlineDeviceData
  | .ok d => some d
  | .err _ => old

/-- The fixed reschedule delay of the poll loop: setTimeout(..., 10 * 1000). -/
def pollDelayMs : Nat := 10 * 1000

/-- poll (platformAccessory.ts lines 266-276): run updateStatus; a
rejection is caught and logged, and in either case the chained then
schedules the next poll pollDelayMs later. The trace records, per cycle,
the time the cycle ran and the snapshot after it. -/
def pollTrace (t : Nat) (old : Option OnlineDeviceData) :
    List PollOutcome → List (Nat × Option OnlineDeviceData)
  | [] => []
  | o :: rest =>
      let d := updateStatus old o
      (t, d) :: pollTrace (t + pollDelayMs) d rest

/-! ## Command dispatch (platformAccessory.ts) -/

/-- Body of the PATCH issued by updateThermostat: { state } or { temperature }. -/
inductive ThermostatBody
  | state (s : Nat)
  | temperature (t : ℚ)
deriving DecidableEq, Repr

/-- TargetTemperature onSet (platformAccessory.ts lines 138-147): the
handler takes the HomeKit value (Celsius), converts it with cToF when the
snapshot's temperature_unit is "F" and leaves it unchanged otherwise, and
dispatches updateThermostat with a { temperature } body; reading the
snapshot goes through guardedOnlineData. The returned value is the PATCH
body updateThermostat sends verbatim (it performs no further conversion). -/
def targetTemperatureOnSet (data : Option OnlineDeviceData) (value : ℚ) :
    Except HapError ThermostatBody :=
  match guardedOnlineData data with
  | .error e => .error e
  | .ok d =>
      .ok (.temperature (if d.temperature_unit = .F then cToF value else value))

/-- Partial night-light settings, one optional field per NightLightData
field, as passed to updateNightLightSettings. -/
structure NightLightUpdate where
  brightness : Option ℚ := none
  auto : Option Bool := none
  on' : Option Bool := none
  off : Option Bool := none
  color : Option RGB := none
deriving DecidableEq, Repr

/-- The object spread { ...current, ...settings }: every field supplied in
the update overrides the snapshot's value, every omitted field is kept. -/
def mergeNightLight (cur : NightLightData) (settings : NightLightUpdate) :
    NightLightData where
  brightness := settings.brightness.getD cur.brightness
  auto := settings.auto.getD cur.auto
  on' := settings.on'.getD cur.on'
  off := settings.off.getD cur.off
  color := settings.color.getD cur.color

/-- Observable effects of one updateNightLightSettings call. -/
structure NightLightCall where
  sentBody : Option NightLightData
  refreshed : Bool
  finalData : Option OnlineDeviceData
  result : Option HapError
deriving DecidableEq, Repr

/-- updateNightLightSettings (platformAccessory.ts lines 247-264): the body
is the spread of the partial settings over the guarded snapshot's
night_light_setting; it is PATCHed to the night-light endpoint, and then
updateStatus refreshes the snapshot. patchErr scripts the PATCH (none =
HTTP 200), refresh scripts the follow-up updateStatus. A guard failure
(data still null) throws before any PATCH is sent. -/
def updateNightLightSettings (data : Option OnlineDeviceData)
    (settings : NightLightUpdate) (patchErr : Option HapError)
    (refresh : PollOutcome) : NightLightCall :=
  match data with
  | none =>
      { sentBody := none, refreshed := false, finalData := none,
        result := some .resourceBusy }
  | some d =>
      let body := mergeNightLight d.night_light_setting settings
      match patchErr with
      | some e =>
          { sentBody := some body, refreshed := false, finalData := some d,
            result := some e }
      | none =>
          { sentBody := some body, refreshed := true,
            finalData := updateStatus (some d) refresh,
            result := match refresh with | .ok _ => none | .err e => some e }

/-- Lightbulb On onGet (platformAccessory.ts line 178): returns the
negation of the snapshot's night_light_setting.off flag. -/
def nightLightOnGet (data : Option OnlineDeviceData) : Except HapError Bool :=
  match guardedOnlineData data with
  | .error e => .error e
  | .ok d => .ok (!d.night_light_setting.off)

/-- Lightbulb On onSet (platformAccessory.ts lines 179-187): dispatches
updateNightLightSettings with on = value, off = !value, auto = false. -/
def nightLightOnSetSettings (value : Bool) : NightLightUpdate :=
  { on' := some value, off := some (!value), auto := some false }

/-! ## Concrete example snapshots -/

/-- The night-light object of the spec's merge scenario. -/
def nlExample : NightLightData :=
  { brightness := 10, auto := false, on' := true, off := false,
    color := { r := 1, g := 2, b := 3 } }

/-- A concrete snapshot whose reported unit is Fahrenheit. -/
def exampleDeviceF : OnlineDeviceData :=
  { current_temperature := 70, ambient_temperature := 68, device_status := 1,
    state := 1, current_mode := 1, status := 1, firmware_version := "1.0",
    temperature_unit := .F,
    auto := { current_temperature := 70, state := 1 },
    night_light_setting := nlExample }

/-- A concrete snapshot whose reported unit is Celsius. -/
def exampleDeviceC : OnlineDeviceData :=
  { exampleDeviceF with
    current_temperature := 21,
    ambient_temperature := 20,
    temperature_unit := .C }

/-! ## Helper lemmas -/

/-- Unfolding the 403 branch of fetch: the token is set to the empty
string, authorize runs, and the call recurses on the remaining replies. -/
theorem fetch_403_step (tok : String) (rest : List ServerReply) (s : ClientState) :
    fetch tok (ServerReply.status 403 :: rest) s
      = fetch tok rest (authorize tok (setToken s (some ""))) := by
  simp [fetch]

/-- authorize performs exactly one login and does not depend on the prior
token for its count. -/
theorem authorize_loginCount (tok : String) (s : ClientState) :
    (authorize tok s).loginCount = s.loginCount + 1 := rfl

/-! ## Claims -/

/-- C9: the conversion functions satisfy fToC f = (f - 32) * 5/9 and
cToF c = c * 9/5 + 32, are total functions on the rationals by
construction, and cToF inverts fToC exactly over rational arithmetic:
cToF (fToC f) = f for every f. -/
theorem c9_conversion_roundtrip (f c : ℚ) :
    fToC f = (f - 32) * (5 / 9) ∧ cToF c = c * (9 / 5) + 32
      ∧ cToF (fToC f) = f := by
  refine ⟨rfl, rfl, ?_⟩
  unfold fToC cToF
  ring

/-- C4: guardedOnlineData fails with RESOURCE_BUSY (NotReadyError) exactly
when no snapshot has ever been loaded; any loaded snapshot is returned as
is, whatever its device_status flag, and no poll outcome can ever return a
loaded snapshot to the null state. -/
theorem c4_guarded_read (od : Option OnlineDeviceData) :
    (guardedOnlineData od = .error .resourceBusy ↔ od = none)
    ∧ (∀ d : OnlineDeviceData, guardedOnlineData (some d) = .ok d)
    ∧ (∀ d : OnlineDeviceData, ∀ o : PollOutcome, updateStatus (some d) o ≠ none) := by
  refine ⟨?_, fun _ => rfl, ?_⟩
  · cases od with
    | none => simp [guardedOnlineData]
    | some d => simp [guardedOnlineData]
  · intro d o
    cases o with
    | ok d2 => simp [updateStatus]
    | err e => simp [updateStatus]

/-- C5: a successful poll replaces the snapshot wholesale with the fetched
data, a failing poll leaves the stored snapshot untouched; in particular
after installing S1 and then failing, the guarded read still returns S1. -/
theorem c5_snapshot_frame (s0 : Option OnlineDeviceData) (S1 : OnlineDeviceData)
    (e : HapError) :
    updateStatus (updateStatus s0 (.ok S1)) (.err e) = some S1
    ∧ guardedOnlineData (updateStatus (updateStatus s0 (.ok S1)) (.err e)) = .ok S1
    ∧ (∀ old d, updateStatus old (.ok d) = some d)
    ∧ (∀ old e2, updateStatus old (.err e2) = old) :=
  ⟨rfl, rfl, fun _ _ => rfl, fun _ _ => rfl⟩

/-- C6: the poll loop runs one cycle per outcome — it never stops early —
and cycle i runs at t + pollDelayMs * i, a fixed 10-second period that does
not depend on whether any cycle succeeded or failed (no backoff, and no
second attempt inside a failed cycle). -/
theorem c6_poll_fixed_period (t : Nat) (old : Option OnlineDeviceData)
    (outcomes : List PollOutcome) :
    (pollTrace t old outcomes).map Prod.fst
      = (List.range outcomes.length).map (fun i => t + pollDelayMs * i) := by
  induction outcomes generalizing t old with
  | nil => rfl
  | cons o rest ih =>
      have hfun : ((fun i => t + pollDelayMs * i) ∘ Nat.succ)
          = fun i => t + pollDelayMs + pollDelayMs * i := by
        funext i
        simp only [Function.comp_apply, Nat.mul_succ]
        ring
      simp only [pollTrace, List.map_cons, List.length_cons,
        List.range_succ_eq_map, List.map_map, hfun, ih]
      simp

/-- C10: the night-light On getter returns the negation of the snapshot's
off flag — varying the on and auto flags does not change it — and the On
setter with value v dispatches the partial update on = v, off = not v,
auto = false, whose merge over any current settings forces exactly that
triple while keeping brightness and color. -/
theorem c10_on_characteristic (d : OnlineDeviceData) (v a b : Bool) :
    nightLightOnGet (some d) = .ok (!d.night_light_setting.off)
    ∧ nightLightOnGet (some { d with night_light_setting :=
        { d.night_light_setting with on' := a, auto := b } })
      = .ok (!d.night_light_setting.off)
    ∧ mergeNightLight d.night_light_setting (nightLightOnSetSettings v)
      = { d.night_light_setting with on' := v, off := !v, auto := false } :=
  ⟨rfl, rfl, rfl⟩

/-- C7: setNightLight merges the supplied partial fields over the current
snapshot's night-light settings, PATCHes the full merged object, and then
refreshes the snapshot; in the spec's scenario, brightness 50 over
brightness 10, auto false, on true, off false, color (1,2,3) sends the full
body with brightness 50 and every other field preserved. -/
theorem c7_night_light_merge (d : OnlineDeviceData) (settings : NightLightUpdate)
    (refresh : PollOutcome) :
    (updateNightLightSettings (some d) settings none refresh).sentBody
      = some (mergeNightLight d.night_light_setting settings)
    ∧ (updateNightLightSettings (some d) settings none refresh).refreshed = true
    ∧ (updateNightLightSettings (some d) settings none refresh).finalData
      = updateStatus (some d) refresh
    ∧ mergeNightLight nlExample { brightness := some 50 }
      = { brightness := 50, auto := false, on' := true, off := false,
          color := { r := 1, g := 2, b := 3 } } :=
  ⟨rfl, rfl, rfl, rfl⟩

/-- C1 counterexample: starting from the state after the initial login, a
server scripted to answer 403, then 403 again, then 200 makes fetch return
the 200 response — the second consecutive 403 is re-authenticated and
retried again instead of propagating SERVICE_COMMUNICATION_FAILURE. -/
theorem c1_counterexample :
    (fetch "tok2" [.status 403, .status 403, .status 200] stateAfterFirstLogin).1
      = .success 200
    ∧ FetchResult.success 200 ≠ .failure .serviceCommunicationFailure :=
  ⟨rfl, by decide⟩

/-- C1 (amended): on every 403 response the held token is cleared, Login is
invoked and the original request is retried, recursively and with no bound:
a script of n consecutive 403 replies is consumed entirely with the client
still retrying, and n consecutive 403s followed by a 200 yield the 200
response after exactly n additional logins — a server that always answers
403 causes unbounded recursion, and no CommunicationError is raised for a
second consecutive 403. -/
theorem c1_unbounded_reauth (tok : String) (n : Nat) (s : ClientState) :
    (fetch tok (List.replicate n (.status 403)) s).1 = .exhausted
    ∧ (fetch tok (List.replicate n (.status 403) ++ [.status 200]) s).1
      = .success 200
    ∧ (fetch tok (List.replicate n (.status 403) ++ [.status 200]) s).2.loginCount
      = s.loginCount + n := by
  induction n generalizing s with
  | zero => exact ⟨rfl, rfl, rfl⟩
  | succ n ih =>
      obtain ⟨h1, h2, h3⟩ := ih (authorize tok (setToken s (some "")))
      refine ⟨?_, ?_, ?_⟩
      · simpa [List.replicate_succ, fetch_403_step] using h1
      · simpa [List.replicate_succ, fetch_403_step] using h2
      · rw [List.replicate_succ, List.cons_append, fetch_403_step, h3]
        simp only [authorize, setToken]
        omega

/-- C2 counterexample: with a snapshot reporting unit C, the target-
temperature setter dispatches the caller's 21 unchanged — not 69.8 — and
with a snapshot reporting unit F and input 70 it dispatches cToF 70 = 158,
not 70: the claim's two unit cases are swapped relative to the code. -/
theorem c2_counterexample :
    targetTemperatureOnSet (some exampleDeviceC) 21 = .ok (.temperature 21)
    ∧ (21 : ℚ) ≠ 69.8
    ∧ targetTemperatureOnSet (some exampleDeviceF) 70 = .ok (.temperature 158)
    ∧ (158 : ℚ) ≠ 70 := by
  refine ⟨rfl, by norm_num, ?_, by norm_num⟩
  show Except.ok (ThermostatBody.temperature (cToF 70)) = _
  norm_num [cToF]

/-- C2 (amended): the target-temperature setter converts the caller's
Celsius value to Fahrenheit exactly when the snapshot reports unit F —
21 degrees C becomes the PATCH body value 69.8, and in general v becomes
v * 9/5 + 32 — and dispatches the value unconverted when the snapshot
reports unit C. -/
theorem c2_target_temperature_conversion (d : OnlineDeviceData) (v : ℚ) :
    (d.temperature_unit = .F →
      targetTemperatureOnSet (some d) v = .ok (.temperature (v * (9 / 5) + 32)))
    ∧ (d.temperature_unit = .C →
      targetTemperatureOnSet (some d) v = .ok (.temperature v))
    ∧ targetTemperatureOnSet (some exampleDeviceF) 21 = .ok (.temperature 69.8) := by
  refine ⟨?_, ?_, ?_⟩
  · intro hF
    simp [targetTemperatureOnSet, guardedOnlineData, hF, cToF]
  · intro hC
    simp [targetTemperatureOnSet, guardedOnlineData, hC]
  · show Except.ok (ThermostatBody.temperature (cToF 21)) = _
    norm_num [cToF]

/-- C2 witness: the amended conversion behavior at the two concrete
example snapshots. -/
theorem c2_witness :
    targetTemperatureOnSet (some exampleDeviceF) 21
      = .ok (.temperature (21 * (9 / 5) + 32))
    ∧ targetTemperatureOnSet (some exampleDeviceC) 21 = .ok (.temperature 21) :=
  ⟨(c2_target_temperature_conversion exampleDeviceF 21).1 rfl,
   (c2_target_temperature_conversion exampleDeviceC 21).2.1 rfl⟩

/-- C3 counterexample: a 401 response does not clear the held token — from
the state after the initial login, fetch on a single 401 reply fails with
INSUFFICIENT_AUTHORIZATION while authToken still holds the original token
and no assignment to it was made at any point during the call. -/
theorem c3_counterexample :
    fetch "tok2" [.status 401] stateAfterFirstLogin
      = (.failure .insufficientAuthorization, stateAfterFirstLogin)
    ∧ stateAfterFirstLogin.authToken = some "tok1"
    ∧ stateAfterFirstLogin.tokenWrites = []
    ∧ some "tok1" ≠ (some "" : Option String) :=
  ⟨rfl, rfl, rfl, by decide⟩

/-- C3 (amended): the token lifecycle is: null at startup, set after a
successful login; a 403 response clears the held token (the empty string
is written, twice: once in the 403 branch and once at the start of
authorize) and then re-acquires it via re-login before the retry proceeds;
a 401 response leaves the held token exactly as it was. -/
theorem c3_token_lifecycle (tok : String) (s : ClientState)
    (rest : List ServerReply) :
    initialClientState.authToken = none
    ∧ (authorize tok s).authToken = some tok
    ∧ fetch tok (ServerReply.status 403 :: rest) s
        = fetch tok rest (authorize tok (setToken s (some "")))
    ∧ (authorize tok (setToken s (some ""))).tokenWrites
        = s.tokenWrites ++ [some "", some "", some tok]
    ∧ (fetch tok [ServerReply.status 401] s).2.authToken = s.authToken := by
  refine ⟨rfl, rfl, fetch_403_step tok rest s, ?_, rfl⟩
  simp [authorize, setToken]

/-- C8: a 401 response fails with INSUFFICIENT_AUTHORIZATION
(AuthorizationError) and returns the client state untouched — no token
clear and no re-login retry; a transport failure fails with
SERVICE_COMMUNICATION_FAILURE; and any status other than 200, 401 and 403
fails with SERVICE_COMMUNICATION_FAILURE (CommunicationError), a distinct
error from the 401 one. -/
theorem c8_error_classification (tok : String) (s : ClientState)
    (rest : List ServerReply) (code : Nat)
    (h200 : code ≠ 200) (h401 : code ≠ 401) (h403 : code ≠ 403) :
    fetch tok (ServerReply.status 401 :: rest) s
      = (.failure .insufficientAuthorization, s)
    ∧ fetch tok (ServerReply.transportError :: rest) s
      = (.failure .serviceCommunicationFailure, s)
    ∧ fetch tok (ServerReply.status code :: rest) s
      = (.failure .serviceCommunicationFailure, s)
    ∧ HapError.insufficientAuthorization ≠ HapError.serviceCommunicationFailure := by
  refine ⟨rfl, rfl, ?_, by decide⟩
  simp only [fetch]
  rw [if_neg h403, if_neg h401]
  by_cases hok : 200 ≤ code ∧ code < 300
  · rw [if_neg (not_not_intro hok), if_pos h200]
  · rw [if_pos hok]

/-- C8 witness: the classification at concrete replies, with 404 as the
other status. -/
theorem c8_witness :
    fetch "tok2" [ServerReply.status 401] stateAfterFirstLogin
      = (.failure .insufficientAuthorization, stateAfterFirstLogin)
    ∧ fetch "tok2" [ServerReply.transportError] stateAfterFirstLogin
      = (.failure .serviceCommunicationFailure, stateAfterFirstLogin)
    ∧ fetch "tok2" [ServerReply.status 404] stateAfterFirstLogin
      = (.failure .serviceCommunicationFailure, stateAfterFirstLogin)
    ∧ HapError.insufficientAuthorization ≠ HapError.serviceCommunicationFailure :=
  c8_error_classification "tok2" stateAfterFirstLogin [] 404
    (by decide) (by decide) (by decide)

end SmartEnvi
